import Mathlib

/-!
Verification development for the RBFCU agent-dial widget.

Shallow embedding of the call-leg orchestration engine found in
src/orchestrator.ts, the session client in src/pexipClient.ts and the
participant normalization shared by src/sse.ts (toParticipant) and
src/orchestrator.ts (mapRawParticipant).

Conventions of the embedding:
 - JavaScript strings are Lean String values; the handful of string
   operations the source uses (trim, toLowerCase, startsWith, includes,
   slice/replace of a leading "sip:") are re-implemented over List Char so
   that all definitions evaluate inside the kernel.  They agree with the
   JavaScript operations on the ASCII inputs the program manipulates.
 - Wall-clock instants (Date.now()) are Nat milliseconds.
 - The asynchronous dial calls of the leg-3 candidate loop are modelled by
   an environment function assigning to each destination string either a
   list of created participant identifiers or a thrown error message.
 - Externally visible side effects (emitted events, REST requests, timer
   creation) are collected in an effect list; timers owned by the session
   (transport heartbeat, dormancy watchdog, reconnect timeout, pending
   leg-3 retry, credential renewal) are carried in the state as flags so
   that teardown behaviour can be stated.
 - Each async method of the source runs atomically here; the guards the
   source checks before and after awaits are kept in place.
-/

/- ───────────────────────── JS string primitives ───────────────────────── -/

/-- ASCII whitespace test used by the String.prototype.trim model. -/
def jsIsSpace (c : Char) : Bool :=
  c = ' ' || c = '\t' || c = '\n' || c = '\r'

/-- Lower-case an ASCII character, as String.prototype.toLowerCase does. -/
def asciiLowerChar (c : Char) : Char :=
  if 'A' ≤ c && c ≤ 'Z' then Char.ofNat (c.toNat + 32) else c

/-- Model of String.prototype.toLowerCase restricted to ASCII. -/
def jsToLower (s : String) : String :=
  String.mk (s.data.map asciiLowerChar)

/-- Model of String.prototype.trim restricted to ASCII whitespace. -/
def jsTrim (s : String) : String :=
  String.mk (((s.data.dropWhile jsIsSpace).reverse.dropWhile jsIsSpace).reverse)

/-- Character-list helper: does the first list start with the second. -/
def charsStartWith : List Char → List Char → Bool
  | _, [] => true
  | [], _ :: _ => false
  | a :: as, b :: bs => (a = b) && charsStartWith as bs

/-- Model of String.prototype.startsWith. -/
def jsStartsWith (s pre : String) : Bool :=
  charsStartWith s.data pre.data

/-- Character-list helper: substring containment. -/
def charsInclude : List Char → List Char → Bool
  | hay, needle =>
    charsStartWith hay needle ||
    (match hay with
     | [] => false
     | _ :: rest => charsInclude rest needle)

/-- Model of String.prototype.includes. -/
def strIncludes (hay needle : String) : Bool :=
  charsInclude hay.data needle.data

/-- Drop the first n characters of a string (used for replace of a leading
sip: match). -/
def jsDrop (s : String) (n : Nat) : String := String.mk (s.data.drop n)

/-- Model of String.prototype.includes for a single character, used for the
at-sign test of tryDialLeg3WithCandidates. -/
def jsHasChar (s : String) (c : Char) : Bool := s.data.contains c

/- ─────────────────────────── Data model (types.ts) ─────────────────────── -/

/-- Participant kind, from the kind field of src/types.ts. -/
inductive PKind where
  | sip
  | webrtc
  | other
deriving Repr, DecidableEq

/-- Participant, from src/types.ts. -/
structure Participant where
  id : String
  displayName : Option String := none
  kind : PKind
  isVideo : Bool
  isConnected : Bool
deriving Repr, DecidableEq

/-- Derived counters of a roster snapshot, from src/types.ts. -/
structure RosterCounts where
  webrtcVideo : Nat
  sipVideo : Nat
deriving Repr, DecidableEq

/-- RosterSnapshot, from src/types.ts. -/
structure RosterSnapshot where
  participants : List Participant
  counts : RosterCounts := ⟨0, 0⟩
deriving Repr, DecidableEq

/-- Orchestrator phase, from src/types.ts. -/
inductive OrchestratorPhase where
  | idle
  | getting_token
  | dialing_leg1
  | waiting_agent_answered
  | dialing_leg3
  | active
  | ended
  | error
deriving Repr, DecidableEq

/-- StartParams, from src/types.ts.  Optional fields become Option. -/
structure StartParams where
  sessionAlias : String
  displayName : Option String := none
  agentUserId : Option String := none
  queueId : Option String := none
  contactCenterAlias : String
  secondDialAlias : String
  pin : Option String := none
  customerSipDomain : Option String := none
deriving Repr, DecidableEq

/- ─────────────── Raw payload values and normalization (sse.ts) ─────────── -/

/-- An untyped JSON-ish value, as far as the normalization code inspects it.
Nested records are only ever read at their type field (hasMediaType), so the
obj constructor carries just that field. -/
inductive JVal where
  | b (v : Bool)
  | num (v : Int)
  | str (v : String)
  | jnull
  | arr (items : List JVal)
  | obj (typeField : Option JVal)
deriving Repr

/-- toBool of src/sse.ts (and its copy in src/orchestrator.ts): JS truthiness
for the accepted flag encodings. -/
def toBool : JVal → Bool
  | .b v => v
  | .num v => v != 0
  | .str v =>
    let s := jsToLower v
    s == "1" || s == "true" || s == "yes" || s == "on"
  | _ => false

/-- toBool applied to a possibly-absent field (absent gives undefined, and
toBool(undefined) falls through to false in the source). -/
def toBoolOpt (v : Option JVal) : Bool :=
  match v with
  | some j => toBool j
  | none => false

/-- getString of src/sse.ts: a non-empty string value, else undefined. -/
def getString : Option JVal → Option String
  | some (.str s) => if s.length > 0 then some s else none
  | _ => none

/-- isRecord of src/sse.ts: typeof v === "object" and v not null (arrays are
objects in JS). -/
def jIsRecord : JVal → Bool
  | .arr _ => true
  | .obj _ => true
  | _ => false

/-- Reading the type property of a raw item; arrays and scalars give
undefined. -/
def jTypeField : JVal → Option JVal
  | .obj t => t
  | _ => none

/-- hasMediaType of src/sse.ts. -/
def hasMediaType (list : Option JVal) (t : String) : Bool :=
  match list with
  | some (.arr items) =>
    items.any (fun item =>
      jIsRecord item &&
        (match getString (jTypeField item) with
         | some s => jsToLower s == t
         | none => false))
  | _ => false

/-- The raw participant payload shape of src/sse.ts; a field holds none when
the property is absent (or set to undefined, which the source cannot
distinguish). -/
structure RawParticipant where
  participant_uuid : Option JVal := none
  uuid : Option JVal := none
  id : Option JVal := none
  display_name : Option JVal := none
  name : Option JVal := none
  participant_name : Option JVal := none
  protocol : Option JVal := none
  is_connected : Option JVal := none
  connected : Option JVal := none
  has_video : Option JVal := none
  video : Option JVal := none
  is_video : Option JVal := none
  streams : Option JVal := none
  media : Option JVal := none
deriving Repr

/-- The protocol-to-kind mapping shared by toParticipant and
mapRawParticipant. -/
def protoToKind (proto : Option String) : PKind :=
  if proto == some "webrtc" || proto == some "web" || proto == some "browser" then .webrtc
  else if proto == some "sip" || proto == some "sips" then .sip
  else .other

/-- toParticipant of src/sse.ts. -/
def toParticipant (raw : RawParticipant) : Option Participant :=
  match (getString raw.participant_uuid).orElse
      (fun _ => (getString raw.uuid).orElse (fun _ => getString raw.id)) with
  | none => none
  | some pid =>
    let displayName := (getString raw.display_name).orElse
      (fun _ => (getString raw.name).orElse (fun _ => getString raw.participant_name))
    let proto := (getString raw.protocol).map jsToLower
    let isConnected :=
      toBoolOpt raw.is_connected || toBoolOpt raw.connected ||
        (raw.is_connected.isNone && raw.connected.isNone)
    let hasVideo :=
      toBoolOpt raw.has_video || toBoolOpt raw.video || toBoolOpt raw.is_video ||
        hasMediaType raw.streams "video" || hasMediaType raw.media "video"
    some { id := pid, displayName := displayName, kind := protoToKind proto,
           isConnected := isConnected, isVideo := hasVideo }

/-- mapRawParticipant of src/orchestrator.ts; its body is the same
normalization as toParticipant of src/sse.ts. -/
def mapRawParticipant (raw : RawParticipant) : Option Participant :=
  match (getString raw.participant_uuid).orElse
      (fun _ => (getString raw.uuid).orElse (fun _ => getString raw.id)) with
  | none => none
  | some pid =>
    let displayName := (getString raw.display_name).orElse
      (fun _ => (getString raw.name).orElse (fun _ => getString raw.participant_name))
    let proto := (getString raw.protocol).map jsToLower
    let isConnected :=
      toBoolOpt raw.is_connected || toBoolOpt raw.connected ||
        (raw.is_connected.isNone && raw.connected.isNone)
    let hasVideo :=
      toBoolOpt raw.has_video || toBoolOpt raw.video || toBoolOpt raw.is_video ||
        hasMediaType raw.streams "video" || hasMediaType raw.media "video"
    some { id := pid, displayName := displayName, kind := protoToKind proto,
           isConnected := isConnected, isVideo := hasVideo }

/-- Modelled from the claim wording of C9 (not from the source): a value is
an accepted truthy connected flag when it is boolean true, a nonzero number,
or one of the strings 1, true, yes, on compared case-insensitively. -/
def specTruthyConnected : JVal → Bool
  | .b v => v == true
  | .num n => n != 0
  | .str s =>
    jsToLower s == "1" || jsToLower s == "true" || jsToLower s == "yes" || jsToLower s == "on"
  | _ => false

/-- Modelled from the claim wording of C9 (not from the source): connected
iff an explicit connected field is truthy in an accepted form, or neither
connected field is present at all. -/
def specConnected (raw : RawParticipant) : Bool :=
  (match raw.is_connected with | some v => specTruthyConnected v | none => false) ||
  (match raw.connected with | some v => specTruthyConnected v | none => false) ||
  (raw.is_connected.isNone && raw.connected.isNone)

/- ─────────────────── Orchestrator helpers (orchestrator.ts) ────────────── -/

/-- normAlias of src/orchestrator.ts: trim, lower-case, strip one leading
sip: prefix. -/
def normAlias (s : String) : String :=
  let t := jsToLower (jsTrim s)
  if jsStartsWith t "sip:" then jsDrop t 4 else t

/-- matchesSipAlias of src/orchestrator.ts. -/
def matchesSipAlias (p : Participant) (aliasStr : String) : Bool :=
  if p.kind != .sip then false
  else
    let dn := p.displayName.getD ""
    if dn == "" then false
    else strIncludes (normAlias dn) (normAlias aliasStr)

/-- The outcome of one dial RPC: a created-participant id list on HTTP
success, or a thrown error message. -/
inductive DialOutcome where
  | ok (created : List String)
  | exn (err : String)
deriving Repr, DecidableEq

/-- Externally visible side effects of the engine: emitted events, REST
requests issued through the session client, and timer creation. -/
inductive Eff where
  | phaseEv (p : OrchestratorPhase)
  | rosterEv
  | activeEv
  | errorEv (msg : String)
  | dialReq (dest : String)
  | disconnectAllReq
  | releaseTokenReq
  | scheduleLeg3Retry (delayMs : Nat)
  | hardEndRun
deriving Repr, DecidableEq

/-- Predicate: is an effect an emitted error event. -/
def Eff.isErrorEv : Eff → Bool
  | .errorEv _ => true
  | _ => false

/-- Predicate: is an effect the creation of a leg-3 retry timer. -/
def Eff.isScheduleRetry : Eff → Bool
  | .scheduleLeg3Retry _ => true
  | _ => false

/-- Predicate: is an effect an executed hardEnd. -/
def Eff.isHardEndRun : Eff → Bool
  | .hardEndRun => true
  | _ => false

/-- Orchestrator instance state: the private fields of the Orchestrator
class, the transport timers owned by its PexipSSE instance, and the
keepalive state of its PexipClient (clientKeepAlive holds the live renewal
token while the renewal interval runs). -/
structure OState where
  token : Option String := none
  currentAlias : Option String := none
  phase : OrchestratorPhase := .idle
  lastStartParams : Option StartParams := none
  agentReady : Bool := false
  leg3Dialed : Bool := false
  stopped : Bool := false
  inactiveSince : Option Nat := none
  minTwoArmed : Bool := false
  belowTwoSince : Option Nat := none
  sseGraceUntil : Nat := 0
  lastConnectedCount : Nat := 0
  fullyEngagedSince : Option Nat := none
  killOnAgentDropArmed : Bool := false
  pendingLeg3Retry : Bool := false
  leg0Retired : Bool := false
  retireAfterMs : Nat := 8000
  fourLegsSince : Option Nat := none
  sseTick : Bool := false
  sseDormancy : Bool := false
  sseReconnect : Bool := false
  clientKeepAlive : Option String := none
deriving Repr, DecidableEq

namespace Orchestrator

/-- Candidate construction of tryDialLeg3WithCandidates: the list is a pure
function of the destination (trimmed) and the optional per-call domain hint
(used when non-empty after trimming). -/
def leg3Candidates (secondDialAlias : String) (customerSipDomain : Option String) :
    List String :=
  let destRaw := jsTrim secondDialAlias
  let hasAt := jsHasChar destRaw '@'
  let looksSip := jsStartsWith (jsToLower destRaw) "sip:"
  if looksSip then
    let stripped := jsDrop destRaw 4
    if stripped == "" then [destRaw] else [destRaw, stripped]
  else if hasAt then
    [destRaw, "sip:" ++ destRaw]
  else
    match customerSipDomain with
    | some d =>
      let dm := jsTrim d
      if dm == "" then [destRaw, "sip:" ++ destRaw]
      else [destRaw ++ "@" ++ dm, "sip:" ++ destRaw ++ "@" ++ dm,
            destRaw, "sip:" ++ destRaw]
    | none => [destRaw, "sip:" ++ destRaw]

/-- The candidate loop of tryDialLeg3WithCandidates.  Walks the candidate
list in order; a dial returning a non-empty created list stops the loop with
success, an empty created list just moves on, a thrown error is remembered
as the last error.  Returns (success, last error, attempted candidates in
order). -/
def attemptCandidates (env : String → DialOutcome) :
    List String → Option String → Bool × Option String × List String
  | [], lastErr => (false, lastErr, [])
  | d :: rest, lastErr =>
    match env d with
    | .ok created =>
      if created.length > 0 then (true, lastErr, [d])
      else
        let r := attemptCandidates env rest lastErr
        (r.1, r.2.1, d :: r.2.2)
    | .exn e =>
      let r := attemptCandidates env rest (some e)
      (r.1, r.2.1, d :: r.2.2)

/-- stop of src/orchestrator.ts: set the stopped guard, close the transport
(which clears the heartbeat, dormancy and reconnect timers of PexipSSE),
phase to ended.  It does not touch the pending leg-3 retry timer nor the
credential renewal interval of the client. -/
def stop (st : OState) : OState × List Eff :=
  ({ st with stopped := true, sseTick := false, sseDormancy := false,
             sseReconnect := false, phase := .ended },
   [Eff.phaseEv .ended])

/-- hardEnd of src/orchestrator.ts: best-effort disconnect_all (which stops
the client keepalive) when a token and alias are present, then stop, then
clear the session identity. -/
def hardEnd (st : OState) : OState × List Eff :=
  if st.token.isSome && st.currentAlias.isSome then
    ({ (stop { st with clientKeepAlive := none }).1 with
        currentAlias := none, token := none },
     [Eff.hardEndRun, Eff.disconnectAllReq] ++ (stop { st with clientKeepAlive := none }).2)
  else
    ({ (stop st).1 with currentAlias := none, token := none },
     [Eff.hardEndRun] ++ (stop st).2)

/-- retireLeg0 of src/orchestrator.ts.  The releaseRejects flag models the
awaited release call rejecting; the catch branch of the source performs the
same stopped/phase updates as the tail of the try branch, and the finally
branch clears the session identity either way.  releaseToken itself stops
the client keepalive before issuing the request. -/
def retireLeg0 (releaseRejects : Bool) (st : OState) : OState × List Eff :=
  if st.leg0Retired then (st, [])
  else
    let st1 := { st with leg0Retired := true, sseTick := false,
                         sseDormancy := false, sseReconnect := false }
    if st1.token.isSome && st1.currentAlias.isSome then
      if releaseRejects then
        ({ st1 with clientKeepAlive := none, stopped := true, phase := .ended,
                    currentAlias := none, token := none },
         [Eff.releaseTokenReq, Eff.phaseEv .ended])
      else
        ({ st1 with clientKeepAlive := none, stopped := true, phase := .ended,
                    currentAlias := none, token := none },
         [Eff.releaseTokenReq, Eff.phaseEv .ended])
    else
      ({ st1 with stopped := true, phase := .ended,
                  currentAlias := none, token := none },
       [Eff.phaseEv .ended])

/-- The synchronous prefix of tryDialLeg3WithCandidates, executed before the
first await: the leg3Dialed guard is set optimistically and the phase moves
to dialing_leg3. -/
def leg3DialBegin (st : OState) : OState × List Eff :=
  ({ st with leg3Dialed := true, phase := .dialing_leg3 },
   [Eff.phaseEv .dialing_leg3])

/-- The fallback error message of the leg-3 exhaustion path. -/
def leg3FailureMsg : String :=
  "Leg 3 could not be routed. Provide a routable alias/URI or verify server routing rules."

/-- tryDialLeg3WithCandidates of src/orchestrator.ts. -/
def tryDialLeg3WithCandidates (env : String → DialOutcome) (st : OState)
    (params : StartParams) : OState × List Eff :=
  if st.token.isNone then (st, [])
  else
    let stB := (leg3DialBegin st).1
    let cands := leg3Candidates params.secondDialAlias params.customerSipDomain
    let r := attemptCandidates env cands none
    let preEffs := (leg3DialBegin st).2 ++ r.2.2.map Eff.dialReq
    if r.1 then (stB, preEffs)
    else
      let retryEffs := if stB.pendingLeg3Retry then [] else [Eff.scheduleLeg3Retry 2500]
      ({ stB with leg3Dialed := false, pendingLeg3Retry := true,
                  phase := .waiting_agent_answered },
       preEffs ++ retryEffs ++
         [Eff.errorEv (r.2.1.getD leg3FailureMsg), Eff.phaseEv .waiting_agent_answered])

/-- ensureLeg3IfAgentReady of src/orchestrator.ts: the idempotent guard. -/
def ensureLeg3IfAgentReady (env : String → DialOutcome) (st : OState) :
    OState × List Eff :=
  if st.stopped || st.leg3Dialed || !st.agentReady then (st, [])
  else
    match st.lastStartParams with
    | some params => tryDialLeg3WithCandidates env st params
    | none => (st, [])

/-- The callback of the pending leg-3 retry timeout: clear the timer handle,
then re-dial only when not stopped, agent still ready, guard clear and start
params remembered. -/
def leg3RetryFire (env : String → DialOutcome) (st : OState) : OState × List Eff :=
  let st1 := { st with pendingLeg3Retry := false }
  if !st1.stopped && st1.agentReady && !st1.leg3Dialed then
    match st1.lastStartParams with
    | some params => tryDialLeg3WithCandidates env st1 params
    | none => (st1, [])
  else (st1, [])

/-- The guard/timer re-initialization at the top of start of
src/orchestrator.ts.  Note that the pending leg-3 retry timer handle is not
among the fields it resets. -/
def startReset (params : StartParams) (st : OState) : OState :=
  { st with lastStartParams := some params,
            agentReady := false,
            leg3Dialed := false,
            stopped := false,
            inactiveSince := none,
            minTwoArmed := false,
            belowTwoSince := none,
            sseGraceUntil := 0,
            lastConnectedCount := 0,
            fullyEngagedSince := none,
            killOnAgentDropArmed := false,
            currentAlias := some params.sessionAlias,
            leg0Retired := false,
            fourLegsSince := none }

/-- start of src/orchestrator.ts.  tokenRes is the outcome of requestToken
(which on success starts the client keepalive) and leg1Res the outcome of
the leg-1 dial toward the contact-center alias.  The returned created list
of the leg-1 dial is not inspected by the source. -/
def start (tokenRes : Except String String) (leg1Res : DialOutcome)
    (params : StartParams) (st : OState) : OState × List Eff :=
  let st0 := { startReset params st with phase := .getting_token }
  let effs0 := [Eff.phaseEv .getting_token]
  match tokenRes with
  | .error e =>
    ({ st0 with phase := .error }, effs0 ++ [Eff.errorEv e, Eff.phaseEv .error])
  | .ok tok =>
    let st1 := { st0 with token := some tok, clientKeepAlive := some tok,
                          sseTick := true, sseDormancy := true, sseReconnect := false }
    if st1.stopped then (st1, effs0)
    else
      let st2 := { st1 with phase := .dialing_leg1 }
      let effs1 := effs0 ++ [Eff.phaseEv .dialing_leg1, Eff.dialReq params.contactCenterAlias]
      match leg1Res with
      | .exn e =>
        ({ st2 with phase := .error }, effs1 ++ [Eff.errorEv e, Eff.phaseEv .error])
      | .ok _created =>
        ({ st2 with phase := .waiting_agent_answered },
         effs1 ++ [Eff.phaseEv .waiting_agent_answered])

/-- Number of connected participants of a snapshot. -/
def connectedCountOf (r : RosterSnapshot) : Nat :=
  (r.participants.filter (fun p => p.isConnected)).length

/-- Leg-1 presence: a connected sip participant whose display name contains
the contact-center alias. -/
def leg1SipUp (r : RosterSnapshot) (params : StartParams) : Bool :=
  r.participants.any (fun p => p.isConnected && matchesSipAlias p params.contactCenterAlias)

/-- Leg-2 presence: a connected webrtc participant (video preferred, then
any). -/
def leg2WebrtcUp (r : RosterSnapshot) : Bool :=
  r.participants.any (fun p => p.kind == .webrtc && p.isConnected && p.isVideo) ||
  r.participants.any (fun p => p.kind == .webrtc && p.isConnected)

/-- Leg-3 presence: a connected sip participant whose display name contains
the external destination alias. -/
def leg3SipUp (r : RosterSnapshot) (params : StartParams) : Bool :=
  r.participants.any (fun p => p.isConnected && matchesSipAlias p params.secondDialAlias)

/-- Leg-0 presence: a connected participant of kind other. -/
def leg0ApiUp (r : RosterSnapshot) : Bool :=
  r.participants.any (fun p => p.isConnected && p.kind == .other)

/-- Agent-readiness check of onRoster: sticky flag plus the idempotent leg-3
nudge on the false-to-true transition. -/
def readinessStep (env : String → DialOutcome) (st : OState) (l1 l2 : Bool) :
    OState × List Eff :=
  if st.agentReady = false ∧ l1 = true ∧ l2 = true then
    ensureLeg3IfAgentReady env { st with agentReady := true }
  else (st, [])

/-- Active-phase transition of onRoster. -/
def activeStep (st : OState) (l2 l3 : Bool) : OState × List Eff :=
  if l2 = true ∧ l3 = true ∧ st.phase ≠ .active then
    ({ st with phase := .active }, [Eff.phaseEv .active, Eff.activeEv])
  else (st, [])

/-- Four-legs/20s arming block of onRoster. -/
def armStep (now : Nat) (st : OState) (fourLegsUp : Bool) : OState :=
  if fourLegsUp then
    match st.fullyEngagedSince with
    | none => { st with fullyEngagedSince := some now }
    | some t =>
      if st.killOnAgentDropArmed = false ∧ now - t ≥ 20000 then
        { st with killOnAgentDropArmed := true }
      else st
  else
    if st.killOnAgentDropArmed = false then { st with fullyEngagedSince := none }
    else st

/-- Continuous four-legs uptime tracking for leg-0 retirement. -/
def fourLegsTrack (now : Nat) (st : OState) (fourLegsUp : Bool) : OState :=
  if fourLegsUp then
    if st.fourLegsSince = none then { st with fourLegsSince := some now } else st
  else { st with fourLegsSince := none }

/-- Has the four-legs condition held long enough to retire leg 0. -/
def fourLegsLongEnough (now : Nat) (st : OState) : Bool :=
  match st.fourLegsSince with
  | some t => decide (now - t ≥ st.retireAfterMs)
  | none => false

/-- Idle-teardown check of onRoster. -/
def idleStep (now : Nat) (st : OState) (connectedCount : Nat) : OState × List Eff :=
  if connectedCount = 0 then
    let inact := st.inactiveSince.getD now
    let st1 := { st with inactiveSince := some inact }
    if now - inact > 3000 ∧ now ≥ st1.sseGraceUntil then stop st1
    else (st1, [])
  else ({ st with inactiveSince := none }, [])

/-- The tail of onRoster after the min-two check: leg classification, agent
readiness, active transition, four-legs arming and kill switch, retirement,
idle teardown. -/
def onRosterRest (env : String → DialOutcome) (now : Nat) (st : OState)
    (params : StartParams) (roster : RosterSnapshot) (connectedCount : Nat) :
    OState × List Eff :=
  let l1 := leg1SipUp roster params
  let l2 := leg2WebrtcUp roster
  let l3 := leg3SipUp roster params
  let l0 := leg0ApiUp roster
  let r1 := readinessStep env st l1 l2
  let r2 := activeStep r1.1 l2 l3
  let fourLegsUp := l0 && l1 && l2 && l3
  let st5 := armStep now r2.1 fourLegsUp
  if st5.killOnAgentDropArmed = true ∧ (l1 = false ∨ l2 = false) then
    ((hardEnd st5).1, r1.2 ++ r2.2 ++ (hardEnd st5).2)
  else
    let st6 := fourLegsTrack now st5 fourLegsUp
    if st6.leg0Retired = false ∧ fourLegsUp = true ∧
        fourLegsLongEnough now st6 = true ∧ l1 = true ∧ l2 = true then
      ((retireLeg0 false st6).1, r1.2 ++ r2.2 ++ (retireLeg0 false st6).2)
    else
      let r3 := idleStep now st6 connectedCount
      (r3.1, r1.2 ++ r2.2 ++ r3.2)

/-- onRoster of src/orchestrator.ts. -/
def onRoster (env : String → DialOutcome) (now : Nat) (st : OState)
    (params : StartParams) (roster : RosterSnapshot) : OState × List Eff :=
  if st.stopped = true then (st, [])
  else
    let connectedCount := connectedCountOf roster
    let st1 :=
      if st.lastConnectedCount > 0 ∧ connectedCount = 0 then
        { st with sseGraceUntil := now + 8000 }
      else st
    let st2 := { st1 with lastConnectedCount := connectedCount }
    let st3 :=
      if st2.minTwoArmed = false ∧ connectedCount ≥ 2 then
        { st2 with minTwoArmed := true, belowTwoSince := none }
      else st2
    if st3.minTwoArmed = true ∧ connectedCount < 2 ∧ now ≥ st3.sseGraceUntil then
      let below := st3.belowTwoSince.getD now
      let st4 := { st3 with belowTwoSince := some below }
      if now - below > 1500 then
        ((hardEnd st4).1, Eff.rosterEv :: (hardEnd st4).2)
      else
        let r := onRosterRest env now st4 params roster connectedCount
        (r.1, Eff.rosterEv :: r.2)
    else
      let r := onRosterRest env now { st3 with belowTwoSince := none } params roster
        connectedCount
      (r.1, Eff.rosterEv :: r.2)

/-- Fold a list of timed snapshots through onRoster. -/
def runSnapshots (env : String → DialOutcome) (params : StartParams) :
    List (Nat × RosterSnapshot) → OState → OState
  | [], st => st
  | (n, r) :: rest, st => runSnapshots env params rest (onRoster env n st params r).1

end Orchestrator

/- ─────────────────────── Session client (pexipClient.ts) ───────────────── -/

namespace PexipClient

/-- The keepalive slot of PexipClient: some live token while the renewal
interval runs, none otherwise (the timer handle of the source is implicit in
the option). -/
structure ClientState where
  keepAlive : Option String := none
deriving Repr, DecidableEq

/-- currentToken of src/pexipClient.ts: the rotated live token, if any. -/
def currentToken (c : ClientState) : Option String := c.keepAlive

/-- stopKeepAlive of src/pexipClient.ts. -/
def stopKeepAlive (c : ClientState) : ClientState := { c with keepAlive := none }

/-- The liveToken computation shared by the credentialed operations:
currentToken() falling back to the caller-supplied token when absent or
empty (JS or-falsiness). -/
def liveTokenFor (c : ClientState) (token : String) : String :=
  match currentToken c with
  | some t => if t == "" then token else t
  | none => token

/-- The token header sent by dial of src/pexipClient.ts. -/
def dialSentToken (c : ClientState) (token : String) : String :=
  liveTokenFor c token

/-- The token header sent by listParticipants of src/pexipClient.ts. -/
def listParticipantsSentToken (c : ClientState) (token : String) : String :=
  liveTokenFor c token

/-- disconnectAll of src/pexipClient.ts: stops the keepalive first, then
computes the token header from the already-stopped state. -/
def disconnectAllOp (c : ClientState) (token : String) : ClientState × String :=
  let c2 := stopKeepAlive c
  (c2, liveTokenFor c2 token)

/-- releaseToken of src/pexipClient.ts: stops the keepalive first, then
computes the token header from the already-stopped state. -/
def releaseTokenOp (c : ClientState) (token : String) : ClientState × String :=
  let c2 := stopKeepAlive c
  (c2, liveTokenFor c2 token)

/-- startKeepAlive of src/pexipClient.ts: restart the slot with the initial
token. -/
def startKeepAlive (initialToken : String) (c : ClientState) : ClientState :=
  { stopKeepAlive c with keepAlive := some initialToken }

/-- One firing of the keepalive tick of src/pexipClient.ts.  refreshed is
the token of a successful refresh response (none on HTTP/network failure or
a malformed body; an empty string is treated as no token).  The slot rotates
only to a non-empty token different from the live one. -/
def keepAliveTick (c : ClientState) (refreshed : Option String) : ClientState :=
  match c.keepAlive, refreshed with
  | some live, some tok =>
    if tok != "" && tok != live then { c with keepAlive := some tok } else c
  | _, _ => c

end PexipClient

/- ─────────────────────── Concrete inputs for witnesses ─────────────────── -/

/-- The scenario parameters of the spec: session A, contact-center alias
+1555@cc, external destination ext@domain. -/
def cParams : StartParams :=
  { sessionAlias := "A", contactCenterAlias := "+1555@cc", secondDialAlias := "ext@domain" }

/-- A dial environment in which every destination yields an empty created
list (HTTP success, no route). -/
def cEnvEmpty : String → DialOutcome := fun _ => .ok []

/-- A dial environment in which every destination succeeds with one created
participant. -/
def cEnvOk : String → DialOutcome := fun _ => .ok ["p1"]

/-- A roster with exactly one connected webrtc participant. -/
def cRosterOne : RosterSnapshot :=
  { participants := [{ id := "w1", kind := .webrtc, isVideo := false, isConnected := true }] }

/-- A live, armed session state whose connected count has been below two
since instant 400. -/
def cStArmed : OState :=
  { token := some "tk", currentAlias := some "A", minTwoArmed := true,
    belowTwoSince := some 400, stopped := false }

/-- A live session state with the agent ready and the leg-3 guard clear. -/
def cStReady : OState :=
  { token := some "tk", currentAlias := some "A", lastStartParams := some cParams,
    agentReady := true, leg3Dialed := false, stopped := false }

/-- A stopped state carrying a pending leg-3 retry timer and a live
credential-renewal slot. -/
def cStStopped : OState :=
  { token := some "tk", currentAlias := some "A", stopped := true,
    pendingLeg3Retry := true, clientKeepAlive := some "kt" }

/-- A raw participant whose only connected field is the explicit boolean
false. -/
def cRawFalsy : RawParticipant :=
  { uuid := some (.str "u1"), connected := some (.b false) }

/-- A client state whose keepalive has rotated to a new token. -/
def cClientRotated : PexipClient.ClientState := { keepAlive := some "rotated" }

/- ─────────────────────────── Helper lemmas ─────────────────────────────── -/

theorem toBool_eq_specTruthy (v : JVal) : toBool v = specTruthyConnected v := by
  cases v with
  | b bv => cases bv <;> rfl
  | num n => rfl
  | str s => rfl
  | jnull => rfl
  | arr l => rfl
  | obj t => rfl

theorem toBoolOpt_eq_specTruthy (o : Option JVal) :
    toBoolOpt o = (match o with | some v => specTruthyConnected v | none => false) := by
  cases o with
  | none => rfl
  | some v => exact toBool_eq_specTruthy v

theorem filter_isErrorEv_map_dialReq (l : List String) :
    (l.map Eff.dialReq).filter Eff.isErrorEv = [] := by
  induction l with
  | nil => rfl
  | cons a t ih => simp [Eff.isErrorEv, ih]

theorem filter_isScheduleRetry_map_dialReq (l : List String) :
    (l.map Eff.dialReq).filter Eff.isScheduleRetry = [] := by
  induction l with
  | nil => rfl
  | cons a t ih => simp [Eff.isScheduleRetry, ih]

namespace Orchestrator

theorem stop_agentReady (st : OState) : (stop st).1.agentReady = st.agentReady := rfl

theorem stop_leg3Dialed (st : OState) : (stop st).1.leg3Dialed = st.leg3Dialed := rfl

theorem hardEnd_agentReady (st : OState) : (hardEnd st).1.agentReady = st.agentReady := by
  unfold hardEnd
  split <;> rfl

theorem hardEnd_leg3Dialed (st : OState) : (hardEnd st).1.leg3Dialed = st.leg3Dialed := by
  unfold hardEnd
  split <;> rfl

theorem retireLeg0_agentReady (b : Bool) (st : OState) :
    (retireLeg0 b st).1.agentReady = st.agentReady := by
  simp only [retireLeg0]
  split_ifs <;> rfl

theorem retireLeg0_leg3Dialed (b : Bool) (st : OState) :
    (retireLeg0 b st).1.leg3Dialed = st.leg3Dialed := by
  simp only [retireLeg0]
  split_ifs <;> rfl

theorem tryDial_agentReady (env : String → DialOutcome) (st : OState) (params : StartParams) :
    (tryDialLeg3WithCandidates env st params).1.agentReady = st.agentReady := by
  simp only [tryDialLeg3WithCandidates, leg3DialBegin]
  split <;> [rfl; (split <;> rfl)]

theorem ensureLeg3_agentReady (env : String → DialOutcome) (st : OState) :
    (ensureLeg3IfAgentReady env st).1.agentReady = st.agentReady := by
  unfold ensureLeg3IfAgentReady
  split
  · rfl
  · split
    · exact tryDial_agentReady _ _ _
    · rfl

theorem readinessStep_mono (env : String → DialOutcome) (st : OState) (l1 l2 : Bool)
    (h : st.agentReady = true) : (readinessStep env st l1 l2).1.agentReady = true := by
  unfold readinessStep
  split_ifs with hc
  · rw [h] at hc
    exact absurd hc.1 (by simp)
  · exact h

theorem activeStep_agentReady (st : OState) (l2 l3 : Bool) :
    (activeStep st l2 l3).1.agentReady = st.agentReady := by
  unfold activeStep
  split_ifs <;> rfl

theorem armStep_agentReady (now : Nat) (st : OState) (f : Bool) :
    (armStep now st f).agentReady = st.agentReady := by
  simp only [armStep]
  split
  · split
    · rfl
    · split <;> rfl
  · split <;> rfl

theorem fourLegsTrack_agentReady (now : Nat) (st : OState) (f : Bool) :
    (fourLegsTrack now st f).agentReady = st.agentReady := by
  simp only [fourLegsTrack]
  split_ifs <;> rfl

theorem idleStep_agentReady (now : Nat) (st : OState) (cc : Nat) :
    (idleStep now st cc).1.agentReady = st.agentReady := by
  simp only [idleStep]
  split_ifs <;> rfl

theorem onRosterRest_agentReady (env : String → DialOutcome) (now : Nat) (st : OState)
    (params : StartParams) (roster : RosterSnapshot) (cc : Nat)
    (h : st.agentReady = true) :
    (onRosterRest env now st params roster cc).1.agentReady = true := by
  simp only [onRosterRest]
  split_ifs
  · rw [hardEnd_agentReady, armStep_agentReady, activeStep_agentReady]
    exact readinessStep_mono _ _ _ _ h
  · rw [retireLeg0_agentReady, fourLegsTrack_agentReady, armStep_agentReady,
      activeStep_agentReady]
    exact readinessStep_mono _ _ _ _ h
  · rw [idleStep_agentReady, fourLegsTrack_agentReady, armStep_agentReady,
      activeStep_agentReady]
    exact readinessStep_mono _ _ _ _ h

theorem onRoster_agentReady (env : String → DialOutcome) (now : Nat) (st : OState)
    (params : StartParams) (roster : RosterSnapshot)
    (h : st.agentReady = true) :
    (onRoster env now st params roster).1.agentReady = true := by
  simp only [onRoster]
  split_ifs <;>
    first
      | exact h
      | (rw [hardEnd_agentReady]; simp [h])
      | (exact onRosterRest_agentReady _ _ _ _ _ _ (by simp [h]))

theorem attemptCandidates_attempted_isPrefix (env : String → DialOutcome)
    (cands : List String) (le : Option String) :
    (attemptCandidates env cands le).2.2 <+: cands := by
  induction cands generalizing le with
  | nil => exact List.nil_prefix
  | cons d rest ih =>
    simp only [attemptCandidates]
    cases env d with
    | ok created =>
      by_cases hlen : created.length > 0
      · simp only [if_pos hlen]
        exact List.cons_prefix_cons.mpr ⟨rfl, List.nil_prefix⟩
      · simp only [if_neg hlen]
        exact List.cons_prefix_cons.mpr ⟨rfl, ih le⟩
    | exn e =>
      exact List.cons_prefix_cons.mpr ⟨rfl, ih (some e)⟩

theorem attemptCandidates_exhaust (env : String → DialOutcome)
    (cands : List String) (le : Option String)
    (h : (attemptCandidates env cands le).1 = false) :
    (attemptCandidates env cands le).2.2 = cands := by
  induction cands generalizing le with
  | nil => rfl
  | cons d rest ih =>
    simp only [attemptCandidates] at h ⊢
    cases henv : env d with
    | ok created =>
      rw [henv] at h
      by_cases hlen : created.length > 0
      · simp only [if_pos hlen] at h
        simp at h
      · simp only [if_neg hlen] at h ⊢
        exact congrArg (List.cons d) (ih le h)
    | exn e =>
      rw [henv] at h
      exact congrArg (List.cons d) (ih (some e) h)

theorem attemptCandidates_allFail (env : String → DialOutcome)
    (cands : List String) (le : Option String)
    (h : ∀ d ∈ cands, env d = .ok [] ∨ ∃ e, env d = .exn e) :
    (attemptCandidates env cands le).1 = false := by
  induction cands generalizing le with
  | nil => rfl
  | cons d rest ih =>
    simp only [attemptCandidates]
    rcases h d (by simp) with h1 | ⟨e, h1⟩
    · rw [h1]
      simpa using ih le (fun x hx => h x (by simp [hx]))
    · rw [h1]
      simpa using ih (some e) (fun x hx => h x (by simp [hx]))

end Orchestrator

/- ─────────────────────────── Claim theorems ────────────────────────────── -/

/-- Claim C3 counterexample: for the bare alias ext with per-call domain hint
domain, the code attempts the domain-qualified forms first and also appends
the SIP-prefixed bare form: the list is
[ext@domain, sip:ext@domain, ext, sip:ext], not the claimed
[ext, ext@domain, sip:ext@domain]. -/
theorem claim3_candidates_counterexample :
    Orchestrator.leg3Candidates "ext" (some "domain") =
      ["ext@domain", "sip:ext@domain", "ext", "sip:ext"] ∧
    Orchestrator.leg3Candidates "ext" (some "domain") ≠
      ["ext", "ext@domain", "sip:ext@domain"] := by decide

/-- Claim C3 (amended): the leg-3 candidate list is a pure function of the
trimmed destination and the optional domain hint.  A sip:-prefixed
destination yields the SIP-prefixed/stripped pair (stripped form omitted
when empty); an @-qualified destination yields exactly [dest, sip:dest]; a
bare alias with a non-empty trimmed domain hint yields the ordered list
domain-qualified, domain-qualified-SIP-prefixed, bare, bare-SIP-prefixed; a
bare alias without a hint yields [bare, sip:bare].  In particular
ext@domain yields [ext@domain, sip:ext@domain].  Candidates are attempted
in order (the attempted list is a prefix of the candidate list) until one
returns a non-empty created list or the list is exhausted (on failure every
candidate was attempted). -/
theorem claim3_candidates_amended (dest : String) (domHint : Option String)
    (env : String → DialOutcome) (cands : List String) (le : Option String) :
    (jsStartsWith (jsToLower (jsTrim dest)) "sip:" = true →
      Orchestrator.leg3Candidates dest domHint =
        (if jsDrop (jsTrim dest) 4 == "" then [jsTrim dest]
         else [jsTrim dest, jsDrop (jsTrim dest) 4])) ∧
    (jsStartsWith (jsToLower (jsTrim dest)) "sip:" = false →
      jsHasChar (jsTrim dest) '@' = true →
      Orchestrator.leg3Candidates dest domHint = [jsTrim dest, "sip:" ++ jsTrim dest]) ∧
    (∀ dm, jsStartsWith (jsToLower (jsTrim dest)) "sip:" = false →
      jsHasChar (jsTrim dest) '@' = false →
      domHint = some dm → jsTrim dm ≠ "" →
      Orchestrator.leg3Candidates dest domHint =
        [jsTrim dest ++ "@" ++ jsTrim dm, "sip:" ++ jsTrim dest ++ "@" ++ jsTrim dm,
         jsTrim dest, "sip:" ++ jsTrim dest]) ∧
    (jsStartsWith (jsToLower (jsTrim dest)) "sip:" = false →
      jsHasChar (jsTrim dest) '@' = false → domHint = none →
      Orchestrator.leg3Candidates dest domHint = [jsTrim dest, "sip:" ++ jsTrim dest]) ∧
    Orchestrator.leg3Candidates "ext@domain" none = ["ext@domain", "sip:ext@domain"] ∧
    ((Orchestrator.attemptCandidates env cands le).2.2 <+: cands) ∧
    ((Orchestrator.attemptCandidates env cands le).1 = false →
      (Orchestrator.attemptCandidates env cands le).2.2 = cands) := by
  refine ⟨?_, ?_, ?_, ?_, by decide,
    Orchestrator.attemptCandidates_attempted_isPrefix env cands le,
    Orchestrator.attemptCandidates_exhaust env cands le⟩
  · intro h
    simp [Orchestrator.leg3Candidates, h]
  · intro h1 h2
    simp [Orchestrator.leg3Candidates, h1, h2]
  · intro dm h1 h2 h3 h4
    subst h3
    simp [Orchestrator.leg3Candidates, h1, h2, h4]
  · intro h1 h2 h3
    subst h3
    simp [Orchestrator.leg3Candidates, h1, h2]

/-- Claim C3 amended witness: the amended equations evaluated at the bare
alias ext with hint domain and at a two-candidate list where every dial
fails. -/
theorem claim3_candidates_amended_witness :
    Orchestrator.leg3Candidates "ext" (some "domain") =
      ["ext@domain", "sip:ext@domain", "ext", "sip:ext"] ∧
    (Orchestrator.attemptCandidates cEnvEmpty ["a", "b"] none).2.2 = ["a", "b"] := by
  constructor
  · rw [(claim3_candidates_amended "ext" (some "domain") cEnvEmpty ["a", "b"] none).2.2.1
      "domain" (by decide) (by decide) rfl (by decide)]
    decide
  · exact (claim3_candidates_amended "ext" (some "domain") cEnvEmpty ["a", "b"]
      none).2.2.2.2.2.2 (by decide)

/-- Claim C9: participant normalization (toParticipant of src/sse.ts and the
identical mapRawParticipant of src/orchestrator.ts) marks a record connected
iff an explicit connected field (is_connected or connected) is truthy in an
accepted form (boolean true, nonzero number, case-insensitive string 1,
true, yes, on), or neither connected field is present at all; a record whose
only connected field is explicitly falsy yields isConnected = false. -/
theorem claim9_connected_normalization (raw : RawParticipant) (p q : Participant)
    (h1 : toParticipant raw = some p)
    (h2 : mapRawParticipant raw = some q) :
    p.isConnected = specConnected raw ∧ q.isConnected = specConnected raw := by
  constructor
  · simp only [toParticipant] at h1
    split at h1
    · exact absurd h1 (by simp)
    · rw [← Option.some.inj h1]
      simp only [toBoolOpt_eq_specTruthy]
      rfl
  · simp only [mapRawParticipant] at h2
    split at h2
    · exact absurd h2 (by simp)
    · rw [← Option.some.inj h2]
      simp only [toBoolOpt_eq_specTruthy]
      rfl

/-- Claim C9 witness: a record whose only connected field is the boolean
false normalizes to isConnected = false, and the claim theorem evaluated on
it. -/
theorem claim9_connected_normalization_witness :
    specConnected cRawFalsy = false ∧
    ∃ p, toParticipant cRawFalsy = some p ∧ p.isConnected = specConnected cRawFalsy := by
  refine ⟨rfl, ⟨⟨"u1", none, .other, false, false⟩, rfl, ?_⟩⟩
  exact (claim9_connected_normalization cRawFalsy _ _ rfl rfl).1

/-- Claim C10 counterexample: with an active keepalive holding the rotated
token, disconnectAll and releaseToken stop the keepalive before computing
the header and therefore transmit the caller-supplied token, not the live
keepalive token. -/
theorem claim10_live_token_counterexample :
    PexipClient.currentToken cClientRotated = some "rotated" ∧
    (PexipClient.disconnectAllOp cClientRotated "orig").2 = "orig" ∧
    (PexipClient.releaseTokenOp cClientRotated "orig").2 = "orig" ∧
    "orig" ≠ "rotated" := by decide

/-- Claim C10 (amended): dial and listParticipants send the live keepalive
token when renewal is active (and non-empty), falling back to the
caller-supplied token when it is absent; disconnectAll and releaseToken stop
renewal first and therefore always send the caller-supplied token.  After a
rotation of the keepalive slot, dial transmits the rotated token rather than
the original. -/
theorem claim10_live_token_amended :
    (∀ (c : PexipClient.ClientState) (tok t : String),
        PexipClient.currentToken c = some t → t ≠ "" →
        PexipClient.dialSentToken c tok = t ∧
        PexipClient.listParticipantsSentToken c tok = t) ∧
    (∀ (c : PexipClient.ClientState) (tok : String),
        PexipClient.currentToken c = none →
        PexipClient.dialSentToken c tok = tok ∧
        PexipClient.listParticipantsSentToken c tok = tok) ∧
    (∀ (c : PexipClient.ClientState) (tok : String),
        (PexipClient.disconnectAllOp c tok).2 = tok ∧
        (PexipClient.releaseTokenOp c tok).2 = tok) ∧
    (∀ (live rot tok : String), rot ≠ "" → rot ≠ live →
        PexipClient.currentToken
          (PexipClient.keepAliveTick { keepAlive := some live } (some rot)) = some rot ∧
        PexipClient.dialSentToken
          (PexipClient.keepAliveTick { keepAlive := some live } (some rot)) tok = rot) := by
  refine ⟨?_, ?_, ?_, ?_⟩
  · intro c tok t h1 h2
    have : c.keepAlive = some t := h1
    constructor <;>
      simp [PexipClient.dialSentToken, PexipClient.listParticipantsSentToken,
        PexipClient.liveTokenFor, PexipClient.currentToken, this, h2]
  · intro c tok h1
    have : c.keepAlive = none := h1
    constructor <;>
      simp [PexipClient.dialSentToken, PexipClient.listParticipantsSentToken,
        PexipClient.liveTokenFor, PexipClient.currentToken, this]
  · intro c tok
    constructor <;> rfl
  · intro live rot tok h1 h2
    have hrot : PexipClient.keepAliveTick { keepAlive := some live } (some rot) =
        { keepAlive := some rot } := by
      simp [PexipClient.keepAliveTick, h1, h2]
    rw [hrot]
    constructor
    · rfl
    · simp [PexipClient.dialSentToken, PexipClient.liveTokenFor,
        PexipClient.currentToken, h1]

/-- Claim C10 amended witness: the amended statements evaluated on a rotated
keepalive slot and the token pair t0/t1. -/
theorem claim10_live_token_amended_witness :
    PexipClient.dialSentToken cClientRotated "orig" = "rotated" ∧
    (PexipClient.disconnectAllOp cClientRotated "orig").2 = "orig" ∧
    PexipClient.dialSentToken
      (PexipClient.keepAliveTick { keepAlive := some "t0" } (some "t1")) "orig" = "t1" := by
  refine ⟨(claim10_live_token_amended.1 cClientRotated "orig" "rotated" rfl (by decide)).1,
    (claim10_live_token_amended.2.2.1 cClientRotated "orig").1,
    (claim10_live_token_amended.2.2.2 "t0" "t1" "orig" (by decide) (by decide)).2⟩

/-- Claim C6 counterexample: stop() on a state with a pending leg-3 retry
timer and an active credential-renewal slot leaves both in place: stop
cancels only the transport timers, so it is not the case that every pending
or recurring timer is cancelled by either operation. -/
theorem claim6_timer_teardown_counterexample :
    (Orchestrator.stop cStStopped).1.pendingLeg3Retry = true ∧
    (Orchestrator.stop cStStopped).1.clientKeepAlive = some "kt" := by decide

/-- Claim C6 (amended): stop() and hardEnd() cancel the transport timers
(heartbeat, dormancy watchdog, reconnect timeout) and are callable from any
state; hardEnd() additionally cancels the credential-renewal interval, but
only when both a token and a session alias are still present; neither
operation cancels a pending leg-3 retry timeout, which instead survives and
whose callback is a no-op once stopped. -/
theorem claim6_timer_teardown_amended (st : OState) (env : String → DialOutcome) :
    ((Orchestrator.stop st).1.sseTick = false ∧
     (Orchestrator.stop st).1.sseDormancy = false ∧
     (Orchestrator.stop st).1.sseReconnect = false ∧
     (Orchestrator.stop st).1.stopped = true ∧
     (Orchestrator.stop st).1.pendingLeg3Retry = st.pendingLeg3Retry ∧
     (Orchestrator.stop st).1.clientKeepAlive = st.clientKeepAlive) ∧
    ((Orchestrator.hardEnd st).1.sseTick = false ∧
     (Orchestrator.hardEnd st).1.sseDormancy = false ∧
     (Orchestrator.hardEnd st).1.sseReconnect = false ∧
     (Orchestrator.hardEnd st).1.stopped = true ∧
     (Orchestrator.hardEnd st).1.pendingLeg3Retry = st.pendingLeg3Retry) ∧
    (st.token.isSome = true → st.currentAlias.isSome = true →
      (Orchestrator.hardEnd st).1.clientKeepAlive = none) ∧
    (st.stopped = true →
      Orchestrator.leg3RetryFire env st = ({ st with pendingLeg3Retry := false }, [])) := by
  refine ⟨⟨rfl, rfl, rfl, rfl, rfl, rfl⟩, ?_, ?_, ?_⟩
  · simp only [Orchestrator.hardEnd]
    split <;> exact ⟨rfl, rfl, rfl, rfl, rfl⟩
  · intro h1 h2
    simp [Orchestrator.hardEnd, Orchestrator.stop, h1, h2]
  · intro h
    simp [Orchestrator.leg3RetryFire, h]

/-- Claim C6 amended witness: the amended statements evaluated on the
concrete stopped state with a live retry timer and keepalive slot. -/
theorem claim6_timer_teardown_amended_witness :
    (Orchestrator.stop cStStopped).1.sseTick = false ∧
    (Orchestrator.hardEnd cStStopped).1.clientKeepAlive = none ∧
    Orchestrator.leg3RetryFire cEnvEmpty cStStopped =
      ({ cStStopped with pendingLeg3Retry := false }, []) := by
  refine ⟨(claim6_timer_teardown_amended cStStopped cEnvEmpty).1.1,
    (claim6_timer_teardown_amended cStStopped cEnvEmpty).2.2.1 rfl rfl,
    (claim6_timer_teardown_amended cStStopped cEnvEmpty).2.2.2 rfl⟩

/-- Claim C7 counterexample: start() with a leg-1 dial that returns an empty
created list reaches waiting_agent_answered and emits no error event: the
created list of the leg-1 dial is never inspected, so an empty list is
treated as success on that leg. -/
theorem claim7_empty_created_counterexample :
    (Orchestrator.start (.ok "tok") (.ok []) cParams {}).1.phase =
      .waiting_agent_answered ∧
    (Orchestrator.start (.ok "tok") (.ok []) cParams {}).2.filter Eff.isErrorEv = [] := by
  decide

/-- Claim C7 (amended): in the leg-3 candidate loop a dial returning an
empty created list is not success: when every candidate yields an empty
created list or throws, the loop reports failure.  The leg-1 dial inside
start() however ignores the returned created list: for any created list,
including the empty one, start proceeds to waiting_agent_answered with no
error event. -/
theorem claim7_empty_created_amended (env : String → DialOutcome) :
    (∀ (cands : List String) (le : Option String),
        (∀ d ∈ cands, env d = .ok [] ∨ ∃ e, env d = .exn e) →
        (Orchestrator.attemptCandidates env cands le).1 = false) ∧
    (∀ (tok : String) (created : List String) (params : StartParams) (st : OState),
        (Orchestrator.start (.ok tok) (.ok created) params st).1.phase =
          .waiting_agent_answered ∧
        (Orchestrator.start (.ok tok) (.ok created) params st).2.filter
          Eff.isErrorEv = []) := by
  constructor
  · exact fun cands le h => Orchestrator.attemptCandidates_allFail env cands le h
  · intro tok created params st
    exact ⟨rfl, rfl⟩

/-- Claim C7 amended witness: every-candidate-empty evaluated on the
scenario candidate pair, and the leg-1 behaviour at the empty created
list. -/
theorem claim7_empty_created_amended_witness :
    (Orchestrator.attemptCandidates cEnvEmpty ["ext@domain", "sip:ext@domain"] none).1
      = false ∧
    (Orchestrator.start (.ok "tok") (.ok []) cParams {}).1.phase =
      .waiting_agent_answered := by
  refine ⟨(claim7_empty_created_amended cEnvEmpty).1 ["ext@domain", "sip:ext@domain"] none
      (fun d _ => Or.inl rfl),
    ((claim7_empty_created_amended cEnvEmpty).2 "tok" [] cParams {}).1⟩

/-- Claim C8: retireLeg0 is one-time (a second call is a no-op), closes the
transport, requests credential release only when a token and alias are
present (release stops the keepalive), never invokes the conference
disconnect operation, and — whether or not the awaited release rejects —
marks the engine stopped, sets phase ended, clears the session identity and
emits no error event. -/
theorem claim8_retire_leg0 (st : OState) (b : Bool) :
    (st.leg0Retired = true → Orchestrator.retireLeg0 b st = (st, [])) ∧
    (st.leg0Retired = false →
      (Orchestrator.retireLeg0 b st).1.leg0Retired = true ∧
      (Orchestrator.retireLeg0 b st).1.stopped = true ∧
      (Orchestrator.retireLeg0 b st).1.phase = .ended ∧
      (Orchestrator.retireLeg0 b st).1.sseTick = false ∧
      (Orchestrator.retireLeg0 b st).1.sseDormancy = false ∧
      (Orchestrator.retireLeg0 b st).1.sseReconnect = false ∧
      (Orchestrator.retireLeg0 b st).1.currentAlias = none ∧
      (Orchestrator.retireLeg0 b st).1.token = none ∧
      Eff.disconnectAllReq ∉ (Orchestrator.retireLeg0 b st).2 ∧
      (Orchestrator.retireLeg0 b st).2.filter Eff.isErrorEv = [] ∧
      (st.token.isSome = true → st.currentAlias.isSome = true →
        Eff.releaseTokenReq ∈ (Orchestrator.retireLeg0 b st).2 ∧
        (Orchestrator.retireLeg0 b st).1.clientKeepAlive = none)) := by
  constructor
  · intro h
    simp [Orchestrator.retireLeg0, h]
  · intro h
    simp only [Orchestrator.retireLeg0, h, Bool.false_eq_true, if_false]
    split_ifs with hta hb
    · exact ⟨rfl, rfl, rfl, rfl, rfl, rfl, rfl, rfl, by simp, rfl,
        fun _ _ => ⟨by simp, rfl⟩⟩
    · exact ⟨rfl, rfl, rfl, rfl, rfl, rfl, rfl, rfl, by simp, rfl,
        fun _ _ => ⟨by simp, rfl⟩⟩
    · refine ⟨rfl, rfl, rfl, rfl, rfl, rfl, rfl, rfl, by simp, rfl,
        fun h1 h2 => absurd ?_ hta⟩
      simp [h1, h2]

/-- Claim C8 witness: retirement evaluated on a live session with a token
and alias, and the one-time guard evaluated on an already-retired state. -/
theorem claim8_retire_leg0_witness :
    (Orchestrator.retireLeg0 false cStReady).1.stopped = true ∧
    (Orchestrator.retireLeg0 false cStReady).1.phase = .ended ∧
    Eff.disconnectAllReq ∉ (Orchestrator.retireLeg0 false cStReady).2 ∧
    Eff.releaseTokenReq ∈ (Orchestrator.retireLeg0 false cStReady).2 ∧
    Orchestrator.retireLeg0 false { cStReady with leg0Retired := true } =
      ({ cStReady with leg0Retired := true }, []) := by
  have h := (claim8_retire_leg0 cStReady false).2 rfl
  exact ⟨h.2.1, h.2.2.1, h.2.2.2.2.2.2.2.2.1,
    (h.2.2.2.2.2.2.2.2.2.2 rfl rfl).1,
    (claim8_retire_leg0 { cStReady with leg0Retired := true } false).1 rfl⟩

/-- Claim C1: the leg-3 dial is guarded: ensureLeg3IfAgentReady is a no-op
whenever stopped, the guard is set, or the agent is not ready; the
synchronous prefix of tryDialLeg3WithCandidates sets the leg3Dialed guard
before the first dial attempt; after a dial sequence (with a token present)
the guard is clear iff every candidate failed; start() clears the guard as
part of its session reset; stop, hardEnd and retireLeg0 never clear it. -/
theorem claim1_leg3_dial_guard (env : String → DialOutcome) (st : OState)
    (params : StartParams) (tk : String) :
    ((st.stopped = true ∨ st.leg3Dialed = true ∨ st.agentReady = false) →
      Orchestrator.ensureLeg3IfAgentReady env st = (st, [])) ∧
    ((Orchestrator.leg3DialBegin st).1.leg3Dialed = true) ∧
    (st.token = some tk →
      ((Orchestrator.tryDialLeg3WithCandidates env st params).1.leg3Dialed = false ↔
        (Orchestrator.attemptCandidates env
          (Orchestrator.leg3Candidates params.secondDialAlias params.customerSipDomain)
          none).1 = false)) ∧
    ((Orchestrator.startReset params st).leg3Dialed = false) ∧
    ((Orchestrator.stop st).1.leg3Dialed = st.leg3Dialed) ∧
    ((Orchestrator.hardEnd st).1.leg3Dialed = st.leg3Dialed) ∧
    (∀ b, (Orchestrator.retireLeg0 b st).1.leg3Dialed = st.leg3Dialed) := by
  refine ⟨?_, rfl, ?_, rfl, rfl, Orchestrator.hardEnd_leg3Dialed st,
    fun b => Orchestrator.retireLeg0_leg3Dialed b st⟩
  · intro h
    rcases h with h | h | h <;> simp [Orchestrator.ensureLeg3IfAgentReady, h]
  · intro htok
    by_cases hr : (Orchestrator.attemptCandidates env
        (Orchestrator.leg3Candidates params.secondDialAlias params.customerSipDomain)
        none).1 = true
    · simp [Orchestrator.tryDialLeg3WithCandidates, Orchestrator.leg3DialBegin, htok, hr]
    · have hr2 : (Orchestrator.attemptCandidates env
          (Orchestrator.leg3Candidates params.secondDialAlias params.customerSipDomain)
          none).1 = false := by simpa using hr
      simp [Orchestrator.tryDialLeg3WithCandidates, Orchestrator.leg3DialBegin, htok, hr2]

/-- Claim C1 witness: the guard no-op and the cleared-iff-all-failed
equivalence evaluated on a ready session with an all-failing dial
environment. -/
theorem claim1_leg3_dial_guard_witness :
    Orchestrator.ensureLeg3IfAgentReady cEnvEmpty { cStReady with leg3Dialed := true } =
      ({ cStReady with leg3Dialed := true }, []) ∧
    ((Orchestrator.tryDialLeg3WithCandidates cEnvEmpty cStReady cParams).1.leg3Dialed = false ↔
      (Orchestrator.attemptCandidates cEnvEmpty
        (Orchestrator.leg3Candidates cParams.secondDialAlias cParams.customerSipDomain)
        none).1 = false) := by
  refine ⟨(claim1_leg3_dial_guard cEnvEmpty { cStReady with leg3Dialed := true }
      cParams "tk").1 (Or.inr (Or.inl rfl)),
    (claim1_leg3_dial_guard cEnvEmpty cStReady cParams "tk").2.2.1 rfl⟩

/-- Claim C4: when every leg-3 candidate has been attempted without success,
the engine clears the leg3Dialed guard, leaves exactly one pending retry
timer (creating one, delayed 2500 ms, only when none is already pending),
emits exactly one error event carrying the last thrown failure (or the
generic routing message when no candidate threw), and sets phase back to
waiting_agent_answered. -/
theorem claim4_leg3_exhaustion (env : String → DialOutcome) (st : OState)
    (params : StartParams) (tk : String)
    (htok : st.token = some tk)
    (hfail : (Orchestrator.attemptCandidates env
      (Orchestrator.leg3Candidates params.secondDialAlias params.customerSipDomain)
      none).1 = false) :
    (Orchestrator.tryDialLeg3WithCandidates env st params).1.leg3Dialed = false ∧
    (Orchestrator.tryDialLeg3WithCandidates env st params).1.phase =
      .waiting_agent_answered ∧
    (Orchestrator.tryDialLeg3WithCandidates env st params).1.pendingLeg3Retry = true ∧
    ((Orchestrator.tryDialLeg3WithCandidates env st params).2.filter Eff.isScheduleRetry =
      if st.pendingLeg3Retry = true then [] else [Eff.scheduleLeg3Retry 2500]) ∧
    ((Orchestrator.tryDialLeg3WithCandidates env st params).2.filter Eff.isErrorEv =
      [Eff.errorEv ((Orchestrator.attemptCandidates env
        (Orchestrator.leg3Candidates params.secondDialAlias params.customerSipDomain)
        none).2.1.getD Orchestrator.leg3FailureMsg)]) := by
  by_cases hp : st.pendingLeg3Retry = true <;>
    refine ⟨?_, ?_, ?_, ?_, ?_⟩ <;>
      simp [Orchestrator.tryDialLeg3WithCandidates, Orchestrator.leg3DialBegin, htok, hfail,
        hp, List.filter_append, filter_isErrorEv_map_dialReq,
        filter_isScheduleRetry_map_dialReq, Eff.isErrorEv, Eff.isScheduleRetry]

/-- Claim C4 witness: the exhaustion path evaluated on a ready session with
no pending retry and an all-failing environment. -/
theorem claim4_leg3_exhaustion_witness :
    (Orchestrator.tryDialLeg3WithCandidates cEnvEmpty cStReady cParams).1.phase =
      .waiting_agent_answered ∧
    ((Orchestrator.tryDialLeg3WithCandidates cEnvEmpty cStReady cParams).2.filter
      Eff.isScheduleRetry = [Eff.scheduleLeg3Retry 2500]) ∧
    ((Orchestrator.tryDialLeg3WithCandidates cEnvEmpty cStReady cParams).2.filter
      Eff.isErrorEv = [Eff.errorEv Orchestrator.leg3FailureMsg]) := by
  have h := claim4_leg3_exhaustion cEnvEmpty cStReady cParams "tk" rfl (by decide)
  refine ⟨h.2.1, ?_, ?_⟩
  · have h4 := h.2.2.2.1
    simpa [cStReady] using h4
  · have h5 := h.2.2.2.2
    simpa [cStReady] using h5

/-- Claim C2: agent readiness is sticky: within a session, once agentReady
is true no onRoster invocation — whatever the snapshot — sets it back to
false, for a single evaluation and along any sequence of evaluations. -/
theorem claim2_agent_ready_sticky (env : String → DialOutcome) (params : StartParams) :
    (∀ (now : Nat) (st : OState) (roster : RosterSnapshot),
        st.agentReady = true →
        (Orchestrator.onRoster env now st params roster).1.agentReady = true) ∧
    (∀ (l : List (Nat × RosterSnapshot)) (st : OState),
        st.agentReady = true →
        (Orchestrator.runSnapshots env params l st).agentReady = true) := by
  refine ⟨fun now st roster h => Orchestrator.onRoster_agentReady env now st params roster h, ?_⟩
  intro l
  induction l with
  | nil => exact fun st h => h
  | cons hd tl ih =>
    obtain ⟨n, r⟩ := hd
    exact fun st h => ih _ (Orchestrator.onRoster_agentReady env n st params r h)

/-- Claim C2 witness: stickiness evaluated on a ready session across a
two-snapshot run where the legs have dropped to a single participant. -/
theorem claim2_agent_ready_sticky_witness :
    cStReady.agentReady = true ∧
    (Orchestrator.onRoster cEnvOk 1000 cStReady cParams cRosterOne).1.agentReady = true ∧
    (Orchestrator.runSnapshots cEnvOk cParams [(1000, cRosterOne), (2000, cRosterOne)]
      cStReady).agentReady = true := by
  refine ⟨rfl, (claim2_agent_ready_sticky cEnvOk cParams).1 1000 cStReady cRosterOne rfl,
    (claim2_agent_ready_sticky cEnvOk cParams).2 [(1000, cRosterOne), (2000, cRosterOne)]
      cStReady rfl⟩

/-- Claim C5: once the connected count has armed the min-two rule and a live
session (token and alias present) observes a snapshot with a single
connected participant, outside any grace window, more than 1.5 seconds after
the below-two timestamp was recorded, the evaluation performs exactly one
hardEnd — its effects are exactly the roster event, the hardEnd run, the
disconnect request and the ended phase event, so no further check of the
snapshot is processed — the session ends with phase ended (not error), and
every later evaluation on the stopped state is a no-op, so no second hardEnd
can occur. -/
theorem claim5_min_two_forced_end (env : String → DialOutcome) (st : OState)
    (params : StartParams) (roster : RosterSnapshot) (now t0 : Nat) (tk al : String)
    (hstop : st.stopped = false)
    (harmed : st.minTwoArmed = true)
    (hbelow : st.belowTwoSince = some t0)
    (hcount : Orchestrator.connectedCountOf roster = 1)
    (hgrace : st.sseGraceUntil ≤ now)
    (hthr : 1500 < now - t0)
    (htok : st.token = some tk)
    (hal : st.currentAlias = some al) :
    ((Orchestrator.onRoster env now st params roster).1.stopped = true ∧
     (Orchestrator.onRoster env now st params roster).1.phase = .ended ∧
     (Orchestrator.onRoster env now st params roster).2 =
       [Eff.rosterEv, Eff.hardEndRun, Eff.disconnectAllReq, Eff.phaseEv .ended]) ∧
    (∀ (n2 : Nat) (st2 : OState) (r2 : RosterSnapshot), st2.stopped = true →
        Orchestrator.onRoster env n2 st2 params r2 = (st2, [])) := by
  constructor
  · refine ⟨?_, ?_, ?_⟩ <;>
      simp [Orchestrator.onRoster, Orchestrator.hardEnd, Orchestrator.stop, hcount, hstop,
        harmed, hbelow, hgrace, htok, hal, hthr]
  · intro n2 st2 r2 h
    simp [Orchestrator.onRoster, h]

/-- Claim C5 witness: the forced end evaluated on the armed session at
instant 2000 with the below-two timestamp 400 and a one-participant
snapshot. -/
theorem claim5_min_two_forced_end_witness :
    (Orchestrator.onRoster cEnvEmpty 2000 cStArmed cParams cRosterOne).1.stopped = true ∧
    (Orchestrator.onRoster cEnvEmpty 2000 cStArmed cParams cRosterOne).1.phase = .ended ∧
    (Orchestrator.onRoster cEnvEmpty 2000 cStArmed cParams cRosterOne).2 =
      [Eff.rosterEv, Eff.hardEndRun, Eff.disconnectAllReq, Eff.phaseEv .ended] ∧
    Orchestrator.onRoster cEnvEmpty 3000
      (Orchestrator.onRoster cEnvEmpty 2000 cStArmed cParams cRosterOne).1 cParams
      cRosterOne =
      ((Orchestrator.onRoster cEnvEmpty 2000 cStArmed cParams cRosterOne).1, []) := by
  have h := claim5_min_two_forced_end cEnvEmpty cStArmed cParams cRosterOne 2000 400 "tk" "A"
    rfl rfl rfl (by decide) (by decide) (by decide) rfl rfl
  exact ⟨h.1.1, h.1.2.1, h.1.2.2, h.2 3000 _ cRosterOne h.1.1⟩
